import Mathlib

/-
Verification of the LMFDB Postgres backend (lmfdb/db_backend.py) against its
natural-language specification.  The Python module is shallowly embedded:
Python values become the inductive type PyObj, psycopg2 SQL composables are
rendered to the strings `as_string` would produce, parameter lists keep the
psycopg2 wrapper (plain / Array / Json) applied to each bound value, and the
database engine is modelled by evaluating the emitted WHERE clauses over
in-memory rows.  Recursive translation functions carry an explicit fuel
argument so that they are structurally recursive and compute by `rfl`; fuel
exhaustion is a distinct error that never occurs at the fuel used in the
theorems below.
-/

namespace LMFDB

/-- Python runtime values as they appear in query dictionaries, rows and
parameter lists: ints, strings, booleans, None, lists and string-keyed dicts
(dicts are modelled as association lists in iteration order). -/
inductive PyObj where
  | vint (n : Int)
  | vstr (s : String)
  | vbool (b : Bool)
  | vnone
  | vlist (l : List PyObj)
  | vdict (l : List (String × PyObj))

open PyObj

mutual
/-- Structural equality on PyObj, modelling Python `==` on the values used by
the backend (numbers, strings, booleans, None, lists, dicts). -/
def pyBeq : PyObj → PyObj → Bool
  | vint a, vint b => a == b
  | vstr a, vstr b => a == b
  | vbool a, vbool b => a == b
  | vnone, vnone => true
  | vlist a, vlist b => pyBeqL a b
  | vdict a, vdict b => pyBeqD a b
  | _, _ => false

/-- Elementwise equality of PyObj lists. -/
def pyBeqL : List PyObj → List PyObj → Bool
  | [], [] => true
  | a :: as, b :: bs => pyBeq a b && pyBeqL as bs
  | _, _ => false

/-- Elementwise equality of string-keyed PyObj association lists. -/
def pyBeqD : List (String × PyObj) → List (String × PyObj) → Bool
  | [], [] => true
  | (k, a) :: as, (k2, b) :: bs => k == k2 && pyBeq a b && pyBeqD as bs
  | _, _ => false
end

instance : BEq PyObj := ⟨pyBeq⟩

/-- Python truthiness for the values above (`if value:`). -/
def pyTruthy : PyObj → Bool
  | vint n => n != 0
  | vstr s => s != ""
  | vbool b => b
  | vnone => false
  | vlist l => !l.isEmpty
  | vdict l => !l.isEmpty

/-- Errors raised by the backend: Python ValueError / KeyError / RuntimeError /
TypeError, the engine rejecting an ill-formed statement, and fuel exhaustion of
the embedding (never hit at the fuel values used below). -/
inductive PyErr where
  | valueError (msg : String)
  | keyError (key : String)
  | runtimeError (msg : String)
  | typeError (msg : String)
  | engineError (msg : String)
  | outOfFuel

/-- A bound parameter as handed to psycopg2: either the plain value, or the
value wrapped by the Array adapter (`$in`/`$nin`), or by the Json adapter
(jsonb columns). -/
inductive Param where
  | plain (v : PyObj)
  | arr (v : PyObj)
  | json (v : PyObj)

/-- First value bound to a key in an association list (Python dict lookup). -/
def alist_get {α : Type} : List (String × α) → String → Option α
  | [], _ => none
  | (k2, v) :: rest, k => if k2 == k then some v else alist_get rest k

/-- Whether a key is present (Python `key in dict`). -/
def alistHas {α : Type} (l : List (String × α)) (k : String) : Bool :=
  (alist_get l k).isSome

/-- Remove a key (Python `dict.pop(key, None)` discarding the value). -/
def alist_remove {α : Type} : List (String × α) → String → List (String × α)
  | [], _ => []
  | (k2, v) :: rest, k => if k2 == k then alist_remove rest k else (k2, v) :: alist_remove rest k

/-- Set a key to a value: replace the bound value if the key is present,
append otherwise (Python `dict[key] = value`). -/
def alist_set {α : Type} : List (String × α) → String → α → List (String × α)
  | [], k, v => [(k, v)]
  | (k2, w) :: rest, k, v => if k2 == k then (k2, v) :: rest else (k2, w) :: alist_set rest k v

/-- Double-quoted identifier, as rendered by psycopg2.sql.Identifier. -/
def quoteIdent (c : String) : String := "\"" ++ c ++ "\""

/-- Join strings with a separator (psycopg2 `SQL(sep).join`). -/
def joinSep (sep : String) : List String → String
  | [] => ""
  | [s] => s
  | s :: rest => s ++ sep ++ joinSep sep rest

/-- Number of occurrences of a character in a string. -/
def countChar (s : String) (c : Char) : Nat :=
  (s.data.filter (fun x => x == c)).length

/-- Python str.isdigit: nonempty and all characters are digits. -/
def isdigitB (s : String) : Bool :=
  !s.data.isEmpty && s.data.all (fun c => c.isDigit)

/-- Split a string at every dot (Python `key.split(".")`). -/
def splitDotAux : List Char → List Char → List String
  | [], acc => [String.mk acc.reverse]
  | c :: rest, acc =>
      if c == '.' then String.mk acc.reverse :: splitDotAux rest []
      else splitDotAux rest (c :: acc)

/-- Split a string at every dot (Python `key.split(".")`). -/
def splitDot (s : String) : List String := splitDotAux s.data []

/-- Digits of a decimal string as a natural number (Python `int(p)`). -/
def parseNatDigits (s : String) : Nat :=
  s.data.foldl (fun acc c => acc * 10 + (c.toNat - 48)) 0

/-- Decimal rendering of a natural number, with internal fuel so that the
definition is structurally recursive. -/
def natToStrAux : Nat → Nat → String
  | 0, _ => ""
  | fuel + 1, n =>
      if n < 10 then String.singleton (Char.ofNat (48 + n))
      else natToStrAux fuel (n / 10) ++ String.singleton (Char.ofNat (48 + n % 10))

/-- Decimal rendering of a natural number. -/
def natToStr (n : Nat) : String := natToStrAux (n + 1) n

/-- A single-quote character, used when rendering psycopg2 string Literals. -/
def sqStr : String := String.singleton (Char.ofNat 39)

/-- Rendering of `Literal(int(p) if p.isdigit() else p)` for a path segment of
a dotted query key. -/
def litSql (p : String) : String :=
  if isdigitB p then natToStr (parseNatDigits p) else sqStr ++ p ++ sqStr

/-- Whether a string starts with a dollar sign (Python `key[0] == "$"` and
`k.startswith("$")`). -/
def startsDollar (s : String) : Bool :=
  match s.data with
  | [] => false
  | c :: _ => c == '$'

/-- Static description of a PostgresTable instance: the fields of
`PostgresTable.__init__` that the verified operations read, including the
mutable flags `out_of_order` and `stats_valid`.  `sort_sql` is the rendered
`self._sort` composable. -/
structure PostgresTable where
  search_table : String
  extra_table : Option String
  label_col : Option String
  search_cols : List String
  extra_cols : List String
  col_type : List (String × String)
  sort_keys : List String
  sort_sql : String
  id_ordered : Bool
  out_of_order : Bool
  stats_valid : Bool
  count_cutoff : Int

/-- The `col` argument threaded through `_parse_special`: either None, a plain
column name (converted to an Identifier at use sites), or an
already-composed SQL fragment for a dotted key. -/
inductive ColRef where
  | cnone
  | plain (c : String)
  | compound (sql : String)

/-- Rendered SQL for a ColRef together with its jsonb flag, mirroring the
`force_json` computation of `_parse_special` (lines 428-433): a Composable
column forces json, a plain column consults `_col_type` (a missing entry is a
Python KeyError), and `None` indexes `_col_type` with None (a KeyError). -/
def colForceJson (T : PostgresTable) : ColRef → Except PyErr (String × Bool)
  | ColRef.compound s => .ok (s, true)
  | ColRef.plain c =>
      match alist_get T.col_type c with
      | some t => .ok (quoteIdent c, t == "jsonb")
      | none => .error (.keyError c)
  | ColRef.cnone => .error (.keyError "None")

mutual
/-- Model of `PostgresTable._parse_dict` (db_backend.py lines 475-550): translates a
query dictionary into the WHERE fragment (None when it imposes no constraint)
and the ordered parameter list.  `fuel` only bounds recursion depth. -/
def parse_dict (T : PostgresTable) : Nat → List (String × PyObj) → ColRef →
    Except PyErr (Option (String × List Param))
  | 0, _, _ => .error .outOfFuel
  | fuel + 1, D, outer =>
    if D.isEmpty then .ok none
    else
      match parse_dict_items T fuel D outer with
      | .error e => .error e
      | .ok (strings, vals) =>
          if strings.isEmpty then .ok none
          else .ok (some (joinSep " AND " strings, vals))

/-- The `for key, value in D.iteritems()` loop of `_parse_dict` (lines
509-546), processing entries in dictionary iteration order and accumulating
clause strings and parameter values. -/
def parse_dict_items (T : PostgresTable) : Nat → List (String × PyObj) → ColRef →
    Except PyErr (List String × List Param)
  | 0, _, _ => .error .outOfFuel
  | fuel + 1, items, outer =>
    match items with
    | [] => .ok ([], [])
    | (key, value) :: rest =>
      if key == "" then .error (.valueError "Error building query: empty key")
      else if startsDollar key then
        match parse_special T fuel key value outer with
        | .error e => .error e
        | .ok r =>
          match parse_dict_items T fuel rest outer with
          | .error e => .error e
          | .ok (strings, vals) =>
            match r with
            | some (s, vs) => .ok (s :: strings, vs ++ vals)
            | none => .ok (strings, vals)
      else
        let dotted := key.data.contains '.'
        let parts := splitDot key
        let key0 := if dotted then parts.headD key else key
        let keyOk : Except PyErr Bool :=
          if dotted then .ok true
          else
            match alist_get T.col_type key with
            | some t => .ok (t == "jsonb")
            | none => .error (.keyError key)
        match keyOk with
        | .error e => .error e
        | .ok fjson =>
          let force_json := if dotted then true else fjson
          if key0 != "id" && !(T.search_cols.contains key0) then
            .error (.valueError (key0 ++ " is not a column of " ++ T.search_table))
          else
            let colS :=
              if dotted then
                quoteIdent key0 ++ String.join (parts.tail.map (fun p => "->" ++ litSql p))
              else quoteIdent key0
            let colRef := if dotted then ColRef.compound colS else ColRef.plain key0
            match value with
            | vdict l =>
              if l.all (fun kv => startsDollar kv.1) then
                match parse_dict T fuel l colRef with
                | .error e => .error e
                | .ok r =>
                  match parse_dict_items T fuel rest outer with
                  | .error e => .error e
                  | .ok (strings, vals) =>
                    match r with
                    | some (s, vs) => .ok (s :: strings, vs ++ vals)
                    | none => .ok (strings, vals)
              else
                match parse_dict_items T fuel rest outer with
                | .error e => .error e
                | .ok (strings, vals) =>
                    .ok ((colS ++ " = %s") :: strings,
                         (if force_json then Param.json value else Param.plain value) :: vals)
            | vnone =>
              match parse_dict_items T fuel rest outer with
              | .error e => .error e
              | .ok (strings, vals) => .ok ((colS ++ " IS NULL") :: strings, vals)
            | _ =>
              match parse_dict_items T fuel rest outer with
              | .error e => .error e
              | .ok (strings, vals) =>
                  .ok ((colS ++ " = %s") :: strings,
                       (if force_json then Param.json value else Param.plain value) :: vals)

/-- Model of `PostgresTable._parse_special` (db_backend.py lines 372-473): translates
one operator key applied to a column (or to sub-clauses for `$and`/`$or`). -/
def parse_special (T : PostgresTable) : Nat → String → PyObj → ColRef →
    Except PyErr (Option (String × List Param))
  | 0, _, _, _ => .error .outOfFuel
  | fuel + 1, key, value, col =>
    if key == "$or" || key == "$and" then
      match value with
      | vlist clauses =>
        match parse_clauses T fuel clauses col with
        | .error e => .error e
        | .ok os =>
          let pairs := os.filterMap id
          if pairs.isEmpty then .ok none
          else
            let joiner := if key == "$or" then " OR " else " AND "
            .ok (some ("(" ++ joinSep joiner (pairs.map Prod.fst) ++ ")",
                       pairs.foldl (fun acc p => acc ++ p.2) []))
      | _ => .error (.typeError "$or and $and take a list of dictionaries")
    else
      match colForceJson T col with
      | .error e => .error e
      | .ok (colS, force_json) =>
        if key == "$exists" then
          if pyTruthy value then .ok (some (colS ++ " IS NOT NULL", []))
          else .ok (some (colS ++ " IS NULL", []))
        else if key == "$notcontains" then
          match value with
          | vlist l =>
              .ok (some (joinSep " AND " (l.map (fun _ => "NOT " ++ colS ++ " @> %s")),
                         l.map (fun v => Param.plain (vlist [v]))))
          | _ => .error (.typeError "$notcontains takes an iterable")
        else
          let cmdWrapped : Except PyErr (String × Bool) :=
            if key == "$lte" then .ok (colS ++ " <= %s", false)
            else if key == "$lt" then .ok (colS ++ " < %s", false)
            else if key == "$gte" then .ok (colS ++ " >= %s", false)
            else if key == "$gt" then .ok (colS ++ " > %s", false)
            else if key == "$ne" then .ok (colS ++ " != %s", false)
            else if key == "$in" then .ok (colS ++ " = ANY(%s)", true)
            else if key == "$nin" then .ok ("NOT (" ++ colS ++ " = ANY(%s)", true)
            else if key == "$contains" then .ok (colS ++ " @> %s", false)
            else if key == "$containedin" then .ok (colS ++ " <@ %s", false)
            else .error (.valueError ("Error building query: " ++ key))
          match cmdWrapped with
          | .error e => .error e
          | .ok (cmd, isArr) =>
            if force_json then
              if isArr then .error (.valueError "$in and $nin operators not supported for jsonb")
              else .ok (some (cmd, [Param.json value]))
            else
              .ok (some (cmd, [if isArr then Param.arr value else Param.plain value]))

/-- The clause list comprehension of `_parse_special` for `$and`/`$or` (line
418): each clause must be a dictionary and is translated by `_parse_dict`
scoped to `col`. -/
def parse_clauses (T : PostgresTable) : Nat → List PyObj → ColRef →
    Except PyErr (List (Option (String × List Param)))
  | 0, _, _ => .error .outOfFuel
  | fuel + 1, clauses, col =>
    match clauses with
    | [] => .ok []
    | c :: rest =>
      match c with
      | vdict items =>
        match parse_dict T fuel items col with
        | .error e => .error e
        | .ok o =>
          match parse_clauses T fuel rest col with
          | .error e => .error e
          | .ok os => .ok (o :: os)
      | _ => .error (.typeError "query clause must be a dictionary")
end

/-- The `nf_fields` table as documented in the module doctests: column
declaration order from the `analyze` example (line 988), integer search
columns, a jsonb `ramps` column, and the documented default sort. -/
def nfT : PostgresTable :=
  { search_table := "nf_fields"
    extra_table := none
    label_col := some "label"
    search_cols := ["label", "coeffs", "degree", "r2", "cm", "disc_abs", "disc_sign",
                    "disc_rad", "ramps", "galt", "class_number", "class_group",
                    "used_grh", "oldpolredabscoeffs"]
    extra_cols := []
    col_type := [("id", "bigint"), ("label", "text"), ("coeffs", "jsonb"),
                 ("degree", "integer"), ("r2", "integer"), ("cm", "boolean"),
                 ("disc_abs", "numeric"), ("disc_sign", "integer"),
                 ("disc_rad", "numeric"), ("ramps", "jsonb"), ("galt", "integer"),
                 ("class_number", "integer"), ("class_group", "jsonb"),
                 ("used_grh", "boolean"), ("oldpolredabscoeffs", "jsonb")]
    sort_keys := ["degree", "disc_abs", "disc_sign", "label"]
    sort_sql := "\"degree\", \"disc_abs\", \"disc_sign\", \"label\""
    id_ordered := true
    out_of_order := false
    stats_valid := true
    count_cutoff := 1000 }

/-- A projection argument as accepted by `_parse_projection`: the integer
codes 0 / 1 / 1.1 / 2, a dictionary with boolean values, a list of column
names, or a single column name. -/
inductive Projection where
  | pLabel
  | pSearch
  | pSearchId
  | pAll
  | pDict (m : List (String × Bool))
  | pList (l : List String)
  | pStr (s : String)

/-- The common tail of `_parse_projection` (lines 368-370): prepend `id` to
the search columns when it was requested or extras columns are present, and
compute the start position of the user data. -/
def finishProj (search_sel extra_sel : List String) (include_id : Bool) :
    List String × List String × Nat :=
  (if include_id || !extra_sel.isEmpty then "id" :: search_sel else search_sel,
   extra_sel,
   if include_id || extra_sel.isEmpty then 0 else 1)

/-- Python set construction `set(bool(val) for val in projection.values())`:
deduplicated collection of the boolean dictionary values as Python objects. -/
def pydedup : List PyObj → List PyObj
  | [] => []
  | x :: rest =>
      let r := pydedup rest
      if r.contains x then r else x :: r

/-- The `for col in self._search_cols` loop of the dictionary branch of
`_parse_projection` (lines 344-347): select a column when its presence in the
remaining projection dictionary equals `including`, popping it either way.
Returns the selected columns and the remaining dictionary. -/
def projDictSearchGo (including : Bool) :
    List String → List (String × Bool) → List String × List (String × Bool)
  | [], m => ([], m)
  | col :: rest, m =>
      let sel := alistHas m col == including
      let r := projDictSearchGo including rest (alist_remove m col)
      (if sel then col :: r.1 else r.1, r.2)

/-- The `for col in self._extra_cols` loop of the dictionary branch of
`_parse_projection` (lines 349-352).  Note that the source tests
`(col in projvals) == including`: membership of the column name in the
already-emptied set of boolean projection values, not in the projection
dictionary. -/
def projDictExtraGo (projvalsRest : List PyObj) (including : Bool) :
    List String → List (String × Bool) → List String × List (String × Bool)
  | [], m => ([], m)
  | col :: rest, m =>
      let sel := projvalsRest.contains (PyObj.vstr col) == including
      let r := projDictExtraGo projvalsRest including rest (alist_remove m col)
      (if sel then col :: r.1 else r.1, r.2)

/-- The dictionary branch of `_parse_projection` (lines 338-354): values must
be uniformly truthy or falsy; `id` is popped first; remaining keys after both
column loops are unknown columns and raise ValueError. -/
def PostgresTable.parseProjDict (T : PostgresTable) (m : List (String × Bool)) :
    Except PyErr (List String × List String × Nat) :=
  let projvals := pydedup (m.map (fun kv => PyObj.vbool kv.2))
  if 1 < projvals.length then .error (.valueError "You cannot both include and exclude.")
  else
    let including := match projvals with
      | PyObj.vbool b :: _ => b
      | _ => false
    let projvalsRest := projvals.drop 1
    let include_id := (alist_get m "id").getD false
    let m1 := alist_remove m "id"
    let r1 := projDictSearchGo including T.search_cols m1
    let r2 := match T.extra_table with
      | some _ => projDictExtraGo projvalsRest including T.extra_cols r1.2
      | none => ([], r1.2)
    if r2.2.isEmpty then .ok (finishProj r1.1 r2.1 include_id)
    else .error (.valueError (joinSep ", " (r2.2.map Prod.fst) ++ " not column of " ++ T.search_table))

/-- The iterable branch of `_parse_projection` (lines 355-367): classify each
requested column into search / extras / id, raising ValueError at the first
unknown name. -/
def PostgresTable.projListGo (T : PostgresTable) :
    List String → Except PyErr (List String × List String × Bool)
  | [] => .ok ([], [], false)
  | col :: rest =>
      if T.search_cols.contains col then
        match T.projListGo rest with
        | .ok (s, e, iid) => .ok (col :: s, e, iid)
        | .error err => .error err
      else if T.extra_cols.contains col then
        match T.projListGo rest with
        | .ok (s, e, iid) => .ok (s, col :: e, iid)
        | .error err => .error err
      else if col == "id" then
        match T.projListGo rest with
        | .ok (s, e, _) => .ok (s, e, true)
        | .error err => .error err
      else .error (.valueError (col ++ " not column of table"))

/-- Model of `PostgresTable._parse_projection` (db_backend.py lines 271-370):
resolve a projection to the search-table columns, extras-table columns and
the start position of user data.  Projection 0 requires a search column
literally named `label`; empty dictionaries, lists and strings are falsy and
rejected. -/
def PostgresTable.parseProjection (T : PostgresTable) (p : Projection) :
    Except PyErr (List String × List String × Nat) :=
  match p with
  | .pLabel =>
      if T.search_cols.contains "label" then .ok (["label"], [], 0)
      else .error (.runtimeError ("label not column of " ++ T.search_table))
  | .pSearch => .ok (T.search_cols, [], 0)
  | .pSearchId => .ok ("id" :: T.search_cols, [], 0)
  | .pAll =>
      match T.extra_table with
      | none => .ok (T.search_cols, [], 0)
      | some _ => .ok ("id" :: T.search_cols, T.extra_cols, 1)
  | .pDict m =>
      if m.isEmpty then .error (.valueError "You must specify at least one key.")
      else T.parseProjDict m
  | .pList l =>
      if l.isEmpty then .error (.valueError "You must specify at least one key.")
      else
        match T.projListGo l with
        | .ok (s, e, iid) => .ok (finishProj s e iid)
        | .error err => .error err
  | .pStr s =>
      if s == "" then .error (.valueError "You must specify at least one key.")
      else
        match T.projListGo [s] with
        | .ok (sc, e, iid) => .ok (finishProj sc e iid)
        | .error err => .error err

/-- The `nf_fields` table with its extras table, as in the module doctests
(`unitsGmodule`, `reg` and `loc_algebras` live in the extras table). -/
def nfXT : PostgresTable :=
  { nfT with
    extra_table := some "nf_fields_extras"
    extra_cols := ["unitsGmodule", "reg", "loc_algebras"]
    col_type := nfT.col_type ++
      [("unitsGmodule", "jsonb"), ("reg", "numeric"), ("loc_algebras", "jsonb")] }

/-- The `ec_padic` table of the `_parse_projection` doctests: its label column
is `lmfdb_iso` and no search column is named `label`. -/
def ecT : PostgresTable :=
  { search_table := "ec_padic"
    extra_table := none
    label_col := some "lmfdb_iso"
    search_cols := ["lmfdb_iso", "p", "prec", "val", "unit"]
    extra_cols := []
    col_type := [("id", "bigint"), ("lmfdb_iso", "text"), ("p", "integer"),
                 ("prec", "integer"), ("val", "integer"), ("unit", "numeric")]
    sort_keys := []
    sort_sql := ""
    id_ordered := false
    out_of_order := false
    stats_valid := true
    count_cutoff := 1000 }

/-- A physical row: the linking id and the stored column values.  A column
absent from `vals` (or stored as None) is NULL. -/
structure Row where
  id : Int
  vals : List (String × PyObj)

/-- The SQL value of a column in a row: the id, or the stored value, with
NULL represented as `none`. -/
def rowVal (r : Row) (c : String) : Option PyObj :=
  if c == "id" then some (PyObj.vint r.id)
  else
    match alist_get r.vals c with
    | some PyObj.vnone => none
    | some v => some v
    | none => none

/-- The database engine evaluating the WHERE clause emitted by `_parse_dict`
for a literal-equality query: `col = %s` is true when the column holds that
value (never for NULL), `col IS NULL` when the column is NULL.  One conjunct
per query entry, as emitted by the translator. -/
def sqlRowMatches (r : Row) (query : List (String × PyObj)) : Bool :=
  query.all (fun kv =>
    match kv.2 with
    | PyObj.vnone => (rowVal r kv.1).isNone
    | v =>
        match rowVal r kv.1 with
        | some w => pyBeq w v
        | none => false)

/-- The ids of the search-table rows matching a query, in table order: the
result set of `SELECT id FROM search_table WHERE <translated query>`. -/
def matchedIds (rows : List Row) (query : List (String × PyObj)) : List Int :=
  (rows.filter (fun r => sqlRowMatches r query)).map (fun r => r.id)

/-- The mutable database state behind one PostgresTable: search and extras
rows, the rows of the `_counts` cache table, and the cached total held by the
PostgresStatsTable object. -/
structure DBState where
  search_rows : List Row
  extra_rows : List Row
  counts : List (List String × List PyObj × Int)
  total : Int

/-- Effect of `UPDATE {table} SET (cols) = (vals) WHERE id = %s`: overwrite
the listed columns of the row with the given id. -/
def updateRows (rows : List Row) (rid : Int) (dat : List (String × PyObj)) : List Row :=
  rows.map (fun r =>
    if r.id == rid then
      { r with vals := dat.foldl (fun vs kv => alist_set vs kv.1 kv.2) r.vals }
    else r)

/-- The data-splitting step of `upsert` (db_backend.py lines 1354-1368):
without an extras table every data column must be a search column; with one,
each column is routed to its owning table, unknown columns raising
ValueError. -/
def PostgresTable.splitUpsertData (T : PostgresTable) :
    List (String × PyObj) → Except PyErr (List (String × PyObj) × List (String × PyObj))
  | [] => .ok ([], [])
  | kv :: rest =>
      if T.search_cols.contains kv.1 then
        match T.splitUpsertData rest with
        | .ok (s, e) => .ok (kv :: s, e)
        | .error err => .error err
      else if T.extra_table.isSome && T.extra_cols.contains kv.1 then
        match T.splitUpsertData rest with
        | .ok (s, e) => .ok (s, kv :: e)
        | .error err => .error err
      else .error (.valueError (kv.1 ++ " is not a column of " ++ T.search_table))

/-- The merge loop of the insertion branch of `upsert` (lines 1397-1399):
each query field absent from the search data is appended to it. -/
def mergeQuery (sd query : List (String × PyObj)) : List (String × PyObj) :=
  query.foldl (fun acc kv => if alistHas acc kv.1 then acc else acc ++ [kv]) sd

/-- Model of `PostgresTable.upsert` (db_backend.py lines 1331-1416).
Validation: nonempty query and data, no id in data, query keys must be id or
search columns, data split by column ownership.  The translated query is run
as `SELECT id ... LIMIT 2`: two matches raise; one match updates both
physical tables (an UPDATE with an empty column list is rejected by the
engine); zero matches raise: ValueError when an id was specified, and
otherwise — after the dead merge of the query fields and the id assignment
(lines 1397-1406) — line 1409 discards the result of `inserter.format(...)`
(contrast line 1385, where the update statement is reassigned), so `_execute`
receives the unformatted template `INSERT INTO {0} ({1}) VALUES ({2})`
together with a nonempty parameter list (`dat` always contains the freshly
assigned id): the driver finds no placeholder to bind and raises before any
row is inserted.  Errors leave the state unchanged (the transaction only
commits at the end).  Returns the updated table flags and database state. -/
def PostgresTable.upsert (T : PostgresTable) (db : DBState)
    (query data : List (String × PyObj)) : Except PyErr (PostgresTable × DBState) :=
  if query.isEmpty || data.isEmpty then
    .error (.valueError "Both query and data must be nonempty")
  else if alistHas data "id" then .error (.valueError "Cannot set id")
  else
    match query.find? (fun kv => kv.1 != "id" && !(T.search_cols.contains kv.1)) with
    | some kv => .error (.valueError (kv.1 ++ " is not a column of " ++ T.search_table))
    | none =>
      match T.splitUpsertData data with
      | .error e => .error e
      | .ok (search_data, extras_data) =>
        let ids := (matchedIds db.search_rows query).take 2
        if 2 ≤ ids.length then
          .error (.valueError "Query does not specify a unique row")
        else
          match ids with
          | [rid] =>
              if search_data.isEmpty || (T.extra_table.isSome && extras_data.isEmpty) then
                .error (.engineError "syntax error: UPDATE with empty column list")
              else
                let db1 := { db with
                  search_rows := updateRows db.search_rows rid search_data,
                  extra_rows :=
                    match T.extra_table with
                    | some _ => updateRows db.extra_rows rid extras_data
                    | none => db.extra_rows }
                let T1 :=
                  if !T.out_of_order && data.any (fun kv => T.sort_keys.contains kv.1) then
                    { T with out_of_order := true }
                  else T
                .ok ({ T1 with stats_valid := false }, db1)
          | _ =>
              if alistHas data "id" || alistHas query "id" then
                .error (.valueError "Cannot specify an id for insertion")
              else
                let _sd := mergeQuery search_data query
                .error (.typeError "not all arguments converted during string formatting")

/-- Insertion step of `PostgresStatsTable._split_dict` (lines 2162-2169):
`zip(*sorted(D.items()))`, the query split into sorted key and value lists.
Insertion keeps ascending key order; keys of a dictionary are distinct. -/
def insertByKey (p : String × PyObj) : List (String × PyObj) → List (String × PyObj)
  | [] => [p]
  | q :: rest => if p.1 < q.1 then p :: q :: rest else q :: insertByKey p rest

/-- Sort an association list by key, ascending (Python `sorted`). -/
def sortByKey : List (String × PyObj) → List (String × PyObj)
  | [] => []
  | p :: rest => insertByKey p (sortByKey rest)

/-- Model of `PostgresStatsTable._split_dict`: the sorted keys and the values
in the same order. -/
def split_dict (D : List (String × PyObj)) : List String × List PyObj :=
  ((sortByKey D).map Prod.fst, (sortByKey D).map Prod.snd)

/-- Model of `PostgresStatsTable.quick_count` (lines 1991-2008): look up the
`_counts` cache row with these sorted columns and values. -/
def quick_count (counts : List (List String × List PyObj × Int))
    (query : List (String × PyObj)) : Option Int :=
  let cv := split_dict query
  match counts.find? (fun r => r.1 == cv.1 && pyBeqL r.2.1 cv.2) with
  | some r => some r.2.2
  | none => none

/-- Model of `PostgresStatsTable._record_count` (lines 2033-2039): INSERT a
new cache row, or UPDATE the existing one. -/
def record_count (counts : List (List String × List PyObj × Int))
    (query : List (String × PyObj)) (n : Int) : List (List String × List PyObj × Int) :=
  let cv := split_dict query
  match quick_count counts query with
  | none => counts ++ [(cv.1, cv.2, n)]
  | some _ => counts.map (fun r => if r.1 == cv.1 && pyBeqL r.2.1 cv.2 then (r.1, r.2.1, n) else r)

/-- Model of `PostgresStatsTable._slow_count` (lines 2010-2031):
`SELECT COUNT(*)` with the translated WHERE clause, storing the result in the
counts cache only when `record` is set.  Returns the count and the resulting
cache. -/
def slow_count (rows : List Row) (counts : List (List String × List PyObj × Int))
    (query : List (String × PyObj)) (record : Bool) :
    Int × List (List String × List PyObj × Int) :=
  let nres : Int := ((rows.filter (fun r => sqlRowMatches r query)).length : Int)
  (nres, if record then record_count counts query nres else counts)

/-- Model of `PostgresStatsTable.count` (db_backend.py lines 2041-2065): the
cached total for the empty query, otherwise the cached exact count when
present, otherwise `_slow_count(query)` — called without `record`.  Returns
the count and the resulting counts cache. -/
def stats_count (total : Int) (counts : List (List String × List PyObj × Int))
    (rows : List Row) (query : List (String × PyObj)) :
    Int × List (List String × List PyObj × Int) :=
  if query.isEmpty then (total, counts)
  else
    match quick_count counts query with
    | some n => (n, counts)
    | none => slow_count rows counts query false

/-- The `col == "id"` branch of `PostgresStatsTable.max` (lines 2077-2079):
`self.count() - 1`, where `count()` is the count of the empty query. -/
def stats_max_id (total : Int) (counts : List (List String × List PyObj × Int))
    (rows : List Row) : Int :=
  (stats_count total counts rows []).1 - 1

/-- The bounds handed to `random.randint` by `PostgresTable.random` (line
909): 1 and `self.max("id")`, inclusive. -/
def randomBounds (total : Int) (counts : List (List String × List PyObj × Int))
    (rows : List Row) : Int × Int :=
  (1, stats_max_id total counts rows)

/-- Model of `self.lucky({"id": rid}, ...)` as used by `random`: the first
row with that id. -/
def luckyById (rows : List Row) (rid : Int) : Option Row :=
  rows.find? (fun r => r.id == rid)

/-- The retry budget of `PostgresTable.random` (line 905). -/
def maxtries : Nat := 100

/-- The retry loop of `PostgresTable.random` (lines 907-926) over a given
sequence of drawn ids: return the first drawn row, or raise the fatal
RuntimeError once every draw has failed. -/
def randomTries (rows : List Row) : List Int → Except PyErr Row
  | [] => .error (.runtimeError "Random selection failed!")
  | d :: rest =>
      match luckyById rows d with
      | some r => .ok r
      | none => randomTries rows rest

/-- Model of `PostgresTable.random`, with the successive outputs of
`random.randint` supplied as `draws` (each in the bounds given by
`randomBounds`); only the first `maxtries` draws are used. -/
def randomModel (rows : List Row) (draws : List Int) : Except PyErr Row :=
  randomTries rows (draws.take maxtries)

/-- The maximum value of the id column of a table, as the specification
defines the range of `random`; 0 for an empty table. -/
def maxIdActual (rows : List Row) : Int :=
  (rows.map (fun r => r.id)).foldl max 0

/-- The `limit is not None` path of `PostgresTable.search` (db_backend.py
lines 799-834): consult `quick_count`; on a miss over-fetch
`max(limit, count_cutoff - offset)` rows and report `offset + rowcount` as an
exact count iff fewer rows than the prefetch limit came back; on a hit fetch
`limit` rows and report the cached count as exact.  Returns the page
(`fetchmany(limit)`), the reported count and the exactness flag. -/
def PostgresTable.searchPage (T : PostgresTable) (rows : List Row)
    (query : List (String × PyObj)) (limit offset : Int)
    (counts : List (List String × List PyObj × Int)) : List Row × Int × Bool :=
  let mrows := rows.filter (fun r => sqlRowMatches r query)
  match quick_count counts query with
  | none =>
      let prelimit := max limit (T.count_cutoff - offset)
      let fetched := (mrows.drop offset.toNat).take prelimit.toNat
      let rowcount : Int := (fetched.length : Int)
      ((fetched.take limit.toNat), offset + rowcount, rowcount < prelimit)
  | some n =>
      let fetched := (mrows.drop offset.toNat).take limit.toNat
      ((fetched.take limit.toNat), n, true)

/-- Committed and uncommitted (pending) physical tables of the connection, as
seen by the transaction of `reload`: rollback discards `pending`, the final
swap moves pending contents over the live tables. -/
structure PgState where
  tables : List (String × List String)
  pending : List (String × List String)

/-- One step of the reload pipeline, recorded for auditing which actions were
issued before a failure. -/
inductive RStep where
  | cloneT (t : String)
  | loadT (t : String)
  | resortS
  | pkeyS
  | reindexS
  | restatS
  | swapS
  | rollbackS

/-- Steps that come after the row-count consistency check of `reload`:
primary-key rebuild, re-sort, re-index, re-stat and the final swap. -/
def isLateStep : RStep → Bool
  | .resortS => true
  | .pkeyS => true
  | .reindexS => true
  | .restatS => true
  | .swapS => true
  | _ => false

/-- One iteration of the staging loop of `reload` (lines 1679-1692): clone the
table to an (uncommitted) `_tmp` copy, bulk-load the file into it, and record
the loaded row count. -/
def stageOne (st : PgState) (steps : List RStep) (name : String) (file : List String) :
    PgState × List RStep × Int :=
  ({ st with pending := st.pending ++ [(name, file)] },
   steps ++ [.cloneT name, .loadT name],
   (file.length : Int))

/-- Rename each live table to its `_old` backup and the staged copy to the
live name (`_swap_in_tmp`, lines 1600-1636); the pending transaction is
committed. -/
def swapInTmp (st : PgState) : PgState :=
  { tables := st.pending.foldl
      (fun ts p =>
        (ts.map (fun q => if q.1 == p.1 then (q.1 ++ "_old1", q.2) else q)) ++ [p])
      st.tables,
    pending := [] }

/-- The tail of `reload` after the consistency check (lines 1696-1710):
re-sort (or just rebuild primary keys), restore indexes, refresh statistics,
and swap the staged tables in. -/
def reloadFinish (T : PostgresTable) (st : PgState) (steps : List RStep)
    (resort reindex restat : Bool) : PgState × List RStep × Option PyErr :=
  let s1 := if T.id_ordered && resort then steps ++ [.resortS] else steps ++ [.pkeyS]
  let s2 := if reindex then s1 ++ [.reindexS] else s1
  let s3 := if restat then s2 ++ [.restatS] else s2
  (swapInTmp st, s3 ++ [.swapS], none)

/-- Model of `PostgresTable.reload` (db_backend.py lines 1651-1710).  Files
are given as their rows; `countsfile`/`statsfile` are optional.  After
staging all supplied files into `_tmp` clones, a search/extras row-count
mismatch rolls the transaction back and raises before any primary-key build,
re-sort, re-index, re-stat or swap.  Returns the final state, the steps
issued and the error if any. -/
def PostgresTable.reload (T : PostgresTable) (st : PgState)
    (searchfile : List String) (extrafile : Option (List String))
    (countsfile statsfile : Option (List String))
    (includes_ids : Bool) (resortArg restatArg : Option Bool) (reindex : Bool) :
    PgState × List RStep × Option PyErr :=
  let resort := resortArg.getD (!includes_ids)
  let restat := restatArg.getD (countsfile.isNone || statsfile.isNone)
  if extrafile.isSome && T.extra_table.isNone then
    (st, [], some (.valueError "No extra table available"))
  else if extrafile.isNone && T.extra_table.isSome then
    (st, [], some (.valueError "Must provide file for extra table"))
  else
    let r1 := stageOne st [] T.search_table searchfile
    let r2 : PgState × List RStep × Option Int :=
      match T.extra_table, extrafile with
      | some et, some ef =>
          let r := stageOne r1.1 r1.2.1 et ef
          (r.1, r.2.1, some r.2.2)
      | _, _ => (r1.1, r1.2.1, none)
    let r3 : PgState × List RStep :=
      match countsfile with
      | some cf =>
          let r := stageOne r2.1 r2.2.1 (T.search_table ++ "_counts") cf
          (r.1, r.2.1)
      | none => (r2.1, r2.2.1)
    let r4 : PgState × List RStep :=
      match statsfile with
      | some sf =>
          let r := stageOne r3.1 r3.2 (T.search_table ++ "_stats") sf
          (r.1, r.2.1)
      | none => r3
    match r2.2.2 with
    | some extraCount =>
        if r1.2.2 ≠ extraCount then
          ({ r4.1 with pending := [] }, r4.2 ++ [.rollbackS],
           some (.runtimeError "Different number of rows in searchfile and extrafile"))
        else reloadFinish T r4.1 r4.2 resort reindex restat
    | none => reloadFinish T r4.1 r4.2 resort reindex restat

/-- The fresh id column name chosen by `resort` (lines 1508-1510): `newid`
with underscores appended until it clashes with no existing column. -/
def newidAux : Nat → String → List String → List String → String
  | 0, cur, _, _ => cur
  | f + 1, cur, sc, ec =>
      if sc.contains cur || ec.contains cur then newidAux f (cur ++ "_") sc ec
      else cur

/-- Model of `PostgresTable.resort` (db_backend.py lines 1494-1539): when the
table is id-ordered and either an explicit staging table was named or the
order is broken, issue the renumbering DDL/DML sequence and clear
`out_of_order`; otherwise do nothing.  Returns the table object and the
statements issued. -/
def PostgresTable.resortModel (T : PostgresTable)
    (search_arg extra_arg : Option String) : Except PyErr (PostgresTable × List String) :=
  if T.id_ordered && (search_arg.isSome || T.out_of_order) then
    if extra_arg.isSome && T.extra_table.isNone then .error (.valueError "No extra table")
    else
      let stn := quoteIdent (search_arg.getD T.search_table)
      let etn : Option String :=
        match extra_arg, T.extra_table with
        | some e, _ => some (quoteIdent e)
        | none, some e => some (quoteIdent e)
        | none, none => none
      let nid := quoteIdent
        (newidAux (T.search_cols.length + T.extra_cols.length + 1) "newid"
          T.search_cols T.extra_cols)
      let searchStmts :=
        ["ALTER TABLE " ++ stn ++ " ADD COLUMN " ++ nid ++ " bigint",
         "UPDATE " ++ stn ++ " SET " ++ nid ++ " = newsort.newid FROM (SELECT id, ROW_NUMBER() OVER(ORDER BY " ++ T.sort_sql ++ ") AS newid FROM " ++ stn ++ ") newsort WHERE " ++ stn ++ ".id = newsort.id"]
      let extraStmts :=
        match etn with
        | some e =>
            ["ALTER TABLE " ++ e ++ " ADD COLUMN " ++ nid ++ " bigint",
             "UPDATE " ++ e ++ " SET " ++ nid ++ " = search_table." ++ nid ++ " FROM (SELECT id, " ++ nid ++ " FROM " ++ stn ++ ") search_table WHERE " ++ e ++ ".id = search_table.id",
             "ALTER TABLE " ++ e ++ " DROP COLUMN \"id\"",
             "ALTER TABLE " ++ e ++ " RENAME COLUMN " ++ nid ++ " TO \"id\"",
             "ALTER TABLE " ++ e ++ " ADD PRIMARY KEY (\"id\")"]
        | none => []
      let tailStmts :=
        ["ALTER TABLE " ++ stn ++ " DROP COLUMN \"id\"",
         "ALTER TABLE " ++ stn ++ " RENAME COLUMN " ++ nid ++ " TO \"id\"",
         "ALTER TABLE " ++ stn ++ " ADD PRIMARY KEY (\"id\")",
         "UPDATE meta_tables SET out_of_order = false WHERE name = %s"]
      .ok ({ T with out_of_order := false }, searchStmts ++ extraStmts ++ tailStmts)
  else .ok (T, [])

/-- The extras-columns component of a projection-resolution result, when no
error was raised. -/
def projExtrasOf : Except PyErr (List String × List String × Nat) → Option (List String)
  | .ok r => some r.2.1
  | .error _ => none

/-- The start-position component of a projection-resolution result, when no
error was raised. -/
def projStartOf : Except PyErr (List String × List String × Nat) → Option Nat
  | .ok r => some r.2.2
  | .error _ => none

/-- A small nf_fields-like database state used in concrete instantiations:
three rows with ids 1, 2 and 3. -/
def c6rows : List Row := [⟨1, []⟩, ⟨2, []⟩, ⟨3, []⟩]

/-- Rows and query used in the count / search instantiations. -/
def c3rows : List Row := [⟨1, [("degree", vint 2)]⟩]

/-- A literal-equality query on the degree column. -/
def c3q : List (String × PyObj) := [("degree", vint 2)]

/-- Six matching rows used in the search-pagination instantiation. -/
def c4rows : List Row :=
  [⟨1, [("degree", vint 2)]⟩, ⟨2, [("degree", vint 2)]⟩, ⟨3, [("degree", vint 2)]⟩,
   ⟨4, [("degree", vint 2)]⟩, ⟨5, [("degree", vint 2)]⟩, ⟨6, [("degree", vint 2)]⟩]

section Theorems

/-- C1 (code bug): the spec states that translating any valid query — every
documented operator, including $nin — yields a syntactically well-formed
boolean expression.  The `$nin` branch of `_parse_special` (line 459) emits
`NOT ("degree" = ANY(%s)` for the valid query
`{"degree": {"$nin": [1, 2]}}`: two opening parentheses against one closing
parenthesis, which the engine rejects as a syntax error. -/
theorem c1_nin_translation_malformed :
    parse_dict nfT 10 [("degree", vdict [("$nin", vlist [vint 1, vint 2])])] ColRef.cnone
      = .ok (some ("NOT (\"degree\" = ANY(%s)", [Param.arr (vlist [vint 1, vint 2])]))
    ∧ countChar "NOT (\"degree\" = ANY(%s)" '(' = 2
    ∧ countChar "NOT (\"degree\" = ANY(%s)" ')' = 1 :=
  ⟨rfl, rfl, rfl⟩

/-- C7 counterexample: for the documented query
`{"degree": 2, "class_number": 6}` the translator binds the parameters in
dictionary iteration order — which the source doctest (lines 492-494) records
as class_number first, giving `[6, 2]` — not in the column-declaration order
`[2, 6]` claimed by the specification (nf_fields declares degree before
class_number). -/
theorem c7_counterexample :
    parse_dict nfT 10 [("class_number", vint 6), ("degree", vint 2)] ColRef.cnone
      = .ok (some ("\"class_number\" = %s AND \"degree\" = %s",
                   [Param.plain (vint 6), Param.plain (vint 2)]))
    ∧ nfT.search_cols.indexOf "degree" < nfT.search_cols.indexOf "class_number"
    ∧ [Param.plain (vint 6), Param.plain (vint 2)]
        ≠ [Param.plain (vint 2), Param.plain (vint 6)] := by
  refine ⟨rfl, by decide, ?_⟩
  intro h
  simp only [List.cons.injEq, Param.plain.injEq, PyObj.vint.injEq] at h
  omega

/-- C7 amended: translating a two-column equality query produces the
conjunction of the two equality tests with one bound parameter per test, the
clauses and parameters following the dictionary iteration order (whichever it
is), not the column-declaration order of the table. -/
theorem c7_params_follow_iteration_order (a b : Int) :
    parse_dict nfT 10 [("class_number", vint a), ("degree", vint b)] ColRef.cnone
      = .ok (some ("\"class_number\" = %s AND \"degree\" = %s",
                   [Param.plain (vint a), Param.plain (vint b)]))
    ∧ parse_dict nfT 10 [("degree", vint b), ("class_number", vint a)] ColRef.cnone
      = .ok (some ("\"degree\" = %s AND \"class_number\" = %s",
                   [Param.plain (vint b), Param.plain (vint a)])) :=
  ⟨rfl, rfl⟩

/-- C8 counterexample: `ec_padic` declares the label column `lmfdb_iso`, yet
the bare label projection (code 0) raises RuntimeError, because
`_parse_projection` (line 324) tests for a search column literally named
`label` instead of consulting the declared label column. -/
theorem c8_counterexample :
    ecT.label_col = some "lmfdb_iso"
    ∧ ecT.parseProjection .pLabel
        = .error (.runtimeError "label not column of ec_padic") :=
  ⟨rfl, rfl⟩

/-- C8 amended: resolving projection code 0 ignores the declared label column
entirely: it succeeds with exactly the single column literally named `label`
(empty extras, start 0) iff the search table has a column of that name, and
raises RuntimeError otherwise. -/
theorem c8_label_projection_amended (T : PostgresTable) (lc : Option String) :
    ({ T with label_col := lc } : PostgresTable).parseProjection .pLabel
        = T.parseProjection .pLabel
    ∧ (T.search_cols.contains "label" = true →
        T.parseProjection .pLabel = .ok (["label"], [], 0))
    ∧ (T.search_cols.contains "label" = false →
        T.parseProjection .pLabel
          = .error (.runtimeError ("label not column of " ++ T.search_table))) := by
  refine ⟨rfl, fun h => ?_, fun h => ?_⟩ <;>
  · simp only [PostgresTable.parseProjection]
    rw [h]
    simp

/-- C8 witness: the amended statement applied to the ec_padic table. -/
theorem c8_label_projection_amended_witness :
    ecT.parseProjection .pLabel
      = .error (.runtimeError ("label not column of " ++ ecT.search_table)) :=
  (c8_label_projection_amended ecT (some "lmfdb_iso")).2.2 rfl

/-- C9: on an id-ordered table whose out_of_order flag is clear, `resort()`
with default arguments issues no statement and leaves the table object (flags
and column lists) unchanged. -/
theorem c9_resort_noop (T : PostgresTable)
    (h1 : T.id_ordered = true) (h2 : T.out_of_order = false) :
    T.resortModel none none = .ok (T, []) := by
  simp [PostgresTable.resortModel, h1, h2]

/-- C9 witness: the no-op applied to the in-order nf_fields table. -/
theorem c9_resort_noop_witness : nfT.resortModel none none = .ok (nfT, []) :=
  c9_resort_noop nfT rfl rfl

/-- C3 counterexample: with an empty counts cache, `count` of a nonempty query
performs the full scan but leaves the cache empty — `_slow_count` is called
without `record` (line 2064) — so an immediately repeated count of the same
query misses the cache again, contrary to the claim. -/
theorem c3_counterexample :
    stats_count 5 [] c3rows c3q = (1, [])
    ∧ quick_count (stats_count 5 [] c3rows c3q).2 c3q = none :=
  ⟨rfl, rfl⟩

/-- C3 amended: `count` returns the cached table total on the empty query, the
cached exact count when one is present, and otherwise the full-scan count,
which is NOT stored in the counts cache (the cache passes through unchanged in
every branch). -/
theorem c3_count_amended (total : Int) (counts : List (List String × List PyObj × Int))
    (rows : List Row) (query : List (String × PyObj)) :
    (query = [] → stats_count total counts rows query = (total, counts))
    ∧ (∀ n, query.isEmpty = false → quick_count counts query = some n →
        stats_count total counts rows query = (n, counts))
    ∧ (query.isEmpty = false → quick_count counts query = none →
        stats_count total counts rows query
          = (((rows.filter (fun r => sqlRowMatches r query)).length : Int), counts)) := by
  refine ⟨?_, ?_, ?_⟩
  · rintro rfl; rfl
  · intro n hq h; simp [stats_count, hq, h]
  · intro hq h; simp [stats_count, hq, h, slow_count]

/-- C3 witness: the amended statement applied with a cached count of 42. -/
theorem c3_count_amended_witness :
    stats_count 5 [(["degree"], [vint 2], 42)] c3rows c3q
      = (42, [(["degree"], [vint 2], 42)]) :=
  (c3_count_amended 5 [(["degree"], [vint 2], 42)] c3rows c3q).2.1 42 rfl rfl

/-- The retry loop of `random` raises the fatal error exactly when every
drawn id failed its point lookup. -/
theorem randomTries_error_iff (rows : List Row) (ds : List Int) :
    randomTries rows ds = .error (.runtimeError "Random selection failed!")
      ↔ ∀ d ∈ ds, luckyById rows d = none := by
  induction ds with
  | nil => simp [randomTries]
  | cons d rest ih =>
      simp only [randomTries, List.forall_mem_cons]
      cases h : luckyById rows d with
      | some r => simp [h]
      | none => simp [h, ih]

/-- C6 counterexample: on a table of three rows with ids 1, 2, 3 (cached total
3), `random` draws from [1, 2] — `max("id")` is implemented as `count() - 1`
(line 2079) — while the maximum value of the id column is 3, so the draw is
not uniform over [1, max(id)] and id 3 is never selected. -/
theorem c6_counterexample :
    randomBounds 3 [] c6rows = (1, 2)
    ∧ maxIdActual c6rows = 3
    ∧ (2 : Int) ≠ 3 :=
  ⟨rfl, rfl, by decide⟩

/-- C6 amended: `random` draws uniformly from [1, T - 1] where T is the cached
row total (`max("id")` returns `count() - 1`, not the maximum id), retries the
point lookup up to the fixed budget of 100 draws, and raises the fatal
RuntimeError exactly when every one of the 100 drawn ids finds no row. -/
theorem c6_random_amended (total : Int) (counts : List (List String × List PyObj × Int))
    (rows : List Row) (draws : List Int) (h : draws.length = maxtries) :
    maxtries = 100
    ∧ randomBounds total counts rows = (1, total - 1)
    ∧ (randomModel rows draws = .error (.runtimeError "Random selection failed!")
        ↔ ∀ d ∈ draws, luckyById rows d = none) := by
  refine ⟨rfl, rfl, ?_⟩
  have ht : draws.take maxtries = draws := List.take_of_length_le (le_of_eq h)
  rw [randomModel, ht]
  exact randomTries_error_iff rows draws

/-- C6 witness: 100 draws of the absent id 5 exhaust the budget and raise. -/
theorem c6_random_amended_witness :
    randomModel c6rows (List.replicate 100 (5 : Int))
      = .error (.runtimeError "Random selection failed!") := by
  refine ((c6_random_amended 3 [] c6rows (List.replicate 100 (5 : Int))
      (by simp [maxtries])).2.2).mpr ?_
  intro d hd
  rw [List.eq_of_mem_replicate hd]
  rfl

/-- C4: searching with a limit first consults the cached exact count.  On a
cache miss the select is issued with fetch limit exactly
`max(limit, count_cutoff - offset)`, the reported count is offset plus the
number of fetched rows, `exact_count` is true iff strictly fewer rows than the
prefetch limit came back; on a cache hit the cached count is reported as
exact.  In both cases at most `limit` rows are returned. -/
theorem c4_search_limit (T : PostgresTable) (rows : List Row)
    (query : List (String × PyObj)) (limit offset : Int)
    (counts : List (List String × List PyObj × Int)) :
    ((T.searchPage rows query limit offset counts).1.length ≤ limit.toNat)
    ∧ (quick_count counts query = none →
        (T.searchPage rows query limit offset counts).2.1
          = offset + ((min ((max limit (T.count_cutoff - offset)).toNat)
              ((rows.filter (fun r => sqlRowMatches r query)).length - offset.toNat) : Nat) : Int))
    ∧ (quick_count counts query = none →
        ((T.searchPage rows query limit offset counts).2.2 = true
          ↔ ((min ((max limit (T.count_cutoff - offset)).toNat)
              ((rows.filter (fun r => sqlRowMatches r query)).length - offset.toNat) : Nat) : Int)
             < max limit (T.count_cutoff - offset)))
    ∧ (∀ n, quick_count counts query = some n →
        (T.searchPage rows query limit offset counts).2 = (n, true)) := by
  refine ⟨?_, fun h => ?_, fun h => ?_, fun n hn => ?_⟩
  · unfold PostgresTable.searchPage
    cases h : quick_count counts query <;> simp
  · simp only [PostgresTable.searchPage, h]
    simp [List.length_take, List.length_drop]
  · simp only [PostgresTable.searchPage, h]
    simp [List.length_take, List.length_drop]
  · simp only [PostgresTable.searchPage, hn]

/-- C4 witness: with a cached count of 1234 the page reports (1234, exact). -/
theorem c4_search_limit_witness :
    (nfT.searchPage c4rows c3q 4 0 [(["degree"], [vint 2], 1234)]).2 = (1234, true) :=
  (c4_search_limit nfT c4rows c3q 4 0 [(["degree"], [vint 2], 1234)]).2.2.2 1234 rfl

/-- C5: when both a search file and an extras file are supplied and their
loaded row counts differ, `reload` rolls the transaction back and raises the
fatal mismatch error; the live tables are unchanged, the staged tables are
discarded, and no primary-key rebuild, re-sort, re-index, re-stat or swap step
was issued. -/
theorem c5_reload_mismatch (T : PostgresTable) (st : PgState)
    (searchfile ef : List String) (countsfile statsfile : Option (List String))
    (includes_ids : Bool) (resortArg restatArg : Option Bool) (reindex : Bool)
    (et : String) (hx : T.extra_table = some et)
    (hcount : (searchfile.length : Int) ≠ (ef.length : Int)) :
    (T.reload st searchfile (some ef) countsfile statsfile includes_ids
        resortArg restatArg reindex).1.tables = st.tables
    ∧ (T.reload st searchfile (some ef) countsfile statsfile includes_ids
        resortArg restatArg reindex).1.pending = []
    ∧ (T.reload st searchfile (some ef) countsfile statsfile includes_ids
        resortArg restatArg reindex).2.2
        = some (.runtimeError "Different number of rows in searchfile and extrafile")
    ∧ ((T.reload st searchfile (some ef) countsfile statsfile includes_ids
        resortArg restatArg reindex).2.1.all (fun s => !isLateStep s)) = true := by
  cases countsfile <;> cases statsfile <;>
    simp [PostgresTable.reload, stageOne, hx, hcount, isLateStep]

/-- C5 witness: a 100-row search file against a 99-row extras file leaves the
live table untouched and reports the mismatch. -/
theorem c5_reload_mismatch_witness :
    (nfXT.reload ⟨[("nf_fields", ["live"])], []⟩ (List.replicate 100 "row")
        (some (List.replicate 99 "row")) none none true none none true).1.tables
      = [("nf_fields", ["live"])]
    ∧ (nfXT.reload ⟨[("nf_fields", ["live"])], []⟩ (List.replicate 100 "row")
        (some (List.replicate 99 "row")) none none true none none true).2.2
      = some (.runtimeError "Different number of rows in searchfile and extrafile") := by
  have h := c5_reload_mismatch nfXT ⟨[("nf_fields", ["live"])], []⟩
    (List.replicate 100 "row") (List.replicate 99 "row") none none true none none true
    "nf_fields_extras" rfl (by simp)
  exact ⟨h.1, h.2.2.1⟩

/-- Membership in the result of a dictionary pop: the entry was already
present and its key differs from the popped one. -/
theorem mem_alist_remove {α : Type} (m : List (String × α)) (k : String)
    (kv : String × α) (h : kv ∈ alist_remove m k) : kv ∈ m ∧ kv.1 ≠ k := by
  induction m with
  | nil => simp [alist_remove] at h
  | cons p rest ih =>
      obtain ⟨k2, v⟩ := p
      simp only [alist_remove] at h
      by_cases hk : (k2 == k) = true
      · rw [if_pos hk] at h
        have h2 := ih h
        exact ⟨List.mem_cons_of_mem _ h2.1, h2.2⟩
      · rw [if_neg hk] at h
        rcases List.mem_cons.mp h with h1 | h2
        · subst h1
          exact ⟨List.mem_cons_self _ _, by simpa using hk⟩
        · have h3 := ih h2
          exact ⟨List.mem_cons_of_mem _ h3.1, h3.2⟩

/-- Every entry surviving the search-column loop of the dictionary projection
was in the input dictionary and names no search column. -/
theorem projDictSearchGo_snd_mem (including : Bool) (cols : List String)
    (m : List (String × Bool)) (kv : String × Bool)
    (h : kv ∈ (projDictSearchGo including cols m).2) :
    kv ∈ m ∧ kv.1 ∉ cols := by
  induction cols generalizing m with
  | nil => exact ⟨h, by simp⟩
  | cons c rest ih =>
      simp only [projDictSearchGo] at h
      have h2 := ih (alist_remove m c) h
      have h3 := mem_alist_remove _ _ _ h2.1
      exact ⟨h3.1, by simp [List.mem_cons, h3.2, h2.2]⟩

/-- Every entry surviving the extras-column loop of the dictionary projection
was in the input dictionary and names no extras column. -/
theorem projDictExtraGo_snd_mem (pv : List PyObj) (including : Bool)
    (cols : List String) (m : List (String × Bool)) (kv : String × Bool)
    (h : kv ∈ (projDictExtraGo pv including cols m).2) :
    kv ∈ m ∧ kv.1 ∉ cols := by
  induction cols generalizing m with
  | nil => exact ⟨h, by simp⟩
  | cons c rest ih =>
      simp only [projDictExtraGo] at h
      have h2 := ih (alist_remove m c) h
      have h3 := mem_alist_remove _ _ _ h2.1
      exact ⟨h3.1, by simp [List.mem_cons, h3.2, h2.2]⟩

/-- With the set of projection values already emptied by `pop`, the extras
loop selects no column when including and every column when excluding —
regardless of which extras columns the dictionary names. -/
theorem projDictExtraGo_fst_nil (including : Bool) (cols : List String)
    (m : List (String × Bool)) :
    (projDictExtraGo [] including cols m).1 = if including then [] else cols := by
  induction cols generalizing m with
  | nil => cases including <;> simp [projDictExtraGo]
  | cons c rest ih =>
      cases including <;> simp [projDictExtraGo, ih]

/-- Reflexivity of the Python equality on booleans wrapped as PyObj. -/
theorem pyBeq_vbool_self (b : Bool) : pyBeq (PyObj.vbool b) (PyObj.vbool b) = true := by
  cases b <;> rfl

/-- A nonempty list of equal boolean values collapses to a one-element set. -/
theorem pydedup_const_bool (b : Bool) (l : List PyObj)
    (h : ∀ x ∈ l, x = PyObj.vbool b) (hne : l ≠ []) :
    pydedup l = [PyObj.vbool b] := by
  induction l with
  | nil => cases hne rfl
  | cons x rest ih =>
      have hx := h x (List.mem_cons_self _ _)
      subst hx
      by_cases hr : rest = []
      · subst hr; simp [pydedup]
      · have h2 := ih (fun y hy => h y (List.mem_cons_of_mem _ hy)) hr
        simp [pydedup, h2, List.contains_cons, pyBeq_vbool_self, BEq.beq]

/-- The dictionary branch of `_parse_projection` on a uniformly-boolean
dictionary naming only known columns: it succeeds, the selected extras
columns are none (including) or all of them (excluding), and the named extras
columns raise no error. -/
theorem parseProjDict_const (T : PostgresTable) (et : String)
    (m : List (String × Bool)) (b : Bool)
    (hext : T.extra_table = some et)
    (hm : m ≠ [])
    (hkeys : ∀ kv ∈ m, kv.1 = "id" ∨ kv.1 ∈ T.search_cols ∨ kv.1 ∈ T.extra_cols)
    (hall : ∀ kv ∈ m, kv.2 = b) :
    T.parseProjDict m
      = .ok (finishProj (projDictSearchGo b T.search_cols (alist_remove m "id")).1
              (if b then [] else T.extra_cols)
              ((alist_get m "id").getD false)) := by
  have hmap : ∀ x ∈ m.map (fun kv => PyObj.vbool kv.2), x = PyObj.vbool b := by
    intro x hx
    obtain ⟨kv, hkv, rfl⟩ := List.mem_map.mp hx
    rw [hall kv hkv]
  have hmapne : m.map (fun kv => PyObj.vbool kv.2) ≠ [] := by
    cases m
    · cases hm rfl
    · simp
  have hpd : pydedup (m.map (fun kv => PyObj.vbool kv.2)) = [PyObj.vbool b] :=
    pydedup_const_bool b _ hmap hmapne
  have hm3 : (projDictExtraGo [] b T.extra_cols
      (projDictSearchGo b T.search_cols (alist_remove m "id")).2).2 = [] := by
    rw [List.eq_nil_iff_forall_not_mem]
    intro kv hkv
    have h1 := projDictExtraGo_snd_mem [] b T.extra_cols _ kv hkv
    have h2 := projDictSearchGo_snd_mem b T.search_cols _ kv h1.1
    have h3 := mem_alist_remove _ _ _ h2.1
    rcases hkeys kv h3.1 with h | h | h
    · exact h3.2 h
    · exact h2.2 h
    · exact h1.2 h
  simp only [PostgresTable.parseProjDict, hpd, hext, List.length_cons,
    List.length_nil, List.drop_succ_cons, List.drop_nil]
  rw [projDictExtraGo_fst_nil, hm3]
  simp

/-- C10: for a table with an extras table, an all-True projection dictionary
resolves to an empty extras tuple (start 0) even when it names extras
columns, and an all-False dictionary resolves to the complete extras column
list even when it names extras columns for exclusion; no error is raised for
the named extras columns. -/
theorem c10_dict_projection_extras (T : PostgresTable) (et : String)
    (m : List (String × Bool))
    (hext : T.extra_table = some et)
    (hm : m.isEmpty = false)
    (hkeys : ∀ kv ∈ m, kv.1 = "id" ∨ kv.1 ∈ T.search_cols ∨ kv.1 ∈ T.extra_cols) :
    ((∀ kv ∈ m, kv.2 = true) →
        projExtrasOf (T.parseProjection (.pDict m)) = some []
        ∧ projStartOf (T.parseProjection (.pDict m)) = some 0)
    ∧ ((∀ kv ∈ m, kv.2 = false) →
        projExtrasOf (T.parseProjection (.pDict m)) = some T.extra_cols) := by
  have hm' : m ≠ [] := by
    cases m
    · simp at hm
    · exact List.cons_ne_nil _ _
  have hproj : T.parseProjection (.pDict m) = T.parseProjDict m := by
    simp [PostgresTable.parseProjection, hm]
  constructor
  · intro hall
    rw [hproj, parseProjDict_const T et m true hext hm' hkeys hall]
    constructor
    · simp [projExtrasOf, finishProj]
    · simp [projStartOf, finishProj]
  · intro hall
    rw [hproj, parseProjDict_const T et m false hext hm' hkeys hall]
    simp [projExtrasOf, finishProj]

/-- C10 witness: an all-True dictionary naming the extras column
`unitsGmodule` still resolves to an empty extras tuple without error. -/
theorem c10_dict_projection_extras_witness :
    projExtrasOf (nfXT.parseProjection
        (.pDict [("label", true), ("unitsGmodule", true)])) = some [] :=
  ((c10_dict_projection_extras nfXT "nf_fields_extras"
      [("label", true), ("unitsGmodule", true)] rfl rfl (by decide)).1 (by decide)).1

/-- C2 counterexample: the zero-match branch of `upsert` never inserts.
First, `upsert({"id": 2}, {"galt": 5})` against a table whose only row has
id 1 raises at line 1395 because the query names `id`, contrary to the
claimed successor-id insertion.  Second, even without an id in the query,
`upsert({"degree": 2}, {"galt": 5})` against an empty table raises instead
of inserting a row with id total + 1: line 1409 discards the formatted
INSERT, so the raw template is executed and the driver raises. -/
theorem c2_counterexample :
    nfT.upsert ⟨[⟨1, [("degree", vint 3)]⟩], [], [], 1⟩
        [("id", vint 2)] [("galt", vint 5)]
      = .error (.valueError "Cannot specify an id for insertion")
    ∧ nfT.upsert ⟨[], [], [], 0⟩ [("degree", vint 2)] [("galt", vint 5)]
      = .error (.typeError "not all arguments converted during string formatting") :=
  ⟨rfl, rfl⟩

/-- C2 amended: with validated inputs (nonempty literal-equality query over id
or search columns, nonempty data without id, split by column ownership into
`sd`/`ed`), `upsert` raises on two or more matches of the translated query
with no state change; updates exactly the matched row, each physical table
receiving its own columns, on exactly one match; and on zero matches it
always raises with no row inserted: ValueError when the query names `id`,
and otherwise the error from executing the unformatted INSERT template that
line 1409 leaves behind by discarding `inserter.format(...)`. -/
theorem c2_upsert_amended (T : PostgresTable) (db : DBState)
    (query data sd ed : List (String × PyObj))
    (hq : query.isEmpty = false) (hd : data.isEmpty = false)
    (hdid : alistHas data "id" = false)
    (hqc : query.find? (fun kv => kv.1 != "id" && !(T.search_cols.contains kv.1)) = none)
    (hsplit : T.splitUpsertData data = .ok (sd, ed)) :
    (2 ≤ (matchedIds db.search_rows query).length →
        T.upsert db query data
          = .error (.valueError "Query does not specify a unique row"))
    ∧ (∀ rid, matchedIds db.search_rows query = [rid] →
        sd.isEmpty = false → (T.extra_table.isSome = true → ed.isEmpty = false) →
        T.upsert db query data
          = .ok ({ (if !T.out_of_order && data.any (fun kv => T.sort_keys.contains kv.1)
                    then { T with out_of_order := true } else T) with
                     stats_valid := false },
                 { db with
                   search_rows := updateRows db.search_rows rid sd,
                   extra_rows :=
                     match T.extra_table with
                     | some _ => updateRows db.extra_rows rid ed
                     | none => db.extra_rows }))
    ∧ (matchedIds db.search_rows query = [] → alistHas query "id" = true →
        T.upsert db query data = .error (.valueError "Cannot specify an id for insertion"))
    ∧ (matchedIds db.search_rows query = [] → alistHas query "id" = false →
        T.upsert db query data
          = .error (.typeError "not all arguments converted during string formatting")) := by
  refine ⟨fun h2 => ?_, fun rid hrid hsd hed => ?_, fun h0 hid => ?_, fun h0 hid => ?_⟩
  · unfold PostgresTable.upsert
    rw [hq, hd, hdid, hqc, hsplit]
    have hlen : 2 ≤ ((matchedIds db.search_rows query).take 2).length := by
      rw [List.length_take]
      omega
    simp only [Bool.false_or, Bool.or_self]
    rw [if_neg (by simp), if_neg (by simp), if_pos hlen]
  · unfold PostgresTable.upsert
    rw [hq, hd, hdid, hqc, hsplit, hrid]
    have hguard : (sd.isEmpty || (T.extra_table.isSome && ed.isEmpty)) = false := by
      rw [hsd]
      cases hext : T.extra_table with
      | none => simp [hext]
      | some e => simp [hext, hed (by simp [hext])]
    simp only [Bool.false_or, Bool.or_self]
    rw [if_neg (by simp), if_neg (by simp)]
    simp only [List.take_succ_cons, List.take_nil, List.length_cons, List.length_nil]
    rw [if_neg (by omega), hguard]
    rfl
  · unfold PostgresTable.upsert
    rw [hq, hd, hdid, hqc, hsplit, h0]
    simp only [Bool.false_or, Bool.or_self, List.take_nil, List.length_nil]
    rw [if_neg (by simp), if_neg (by simp), if_neg (by omega)]
    rw [hid]
    rfl
  · unfold PostgresTable.upsert
    rw [hq, hd, hdid, hqc, hsplit, h0]
    simp only [Bool.false_or, Bool.or_self, List.take_nil, List.length_nil]
    rw [if_neg (by simp), if_neg (by simp), if_neg (by omega)]
    rw [hid]
    rfl

/-- C2 witness: the amended statement applied to the update of the unique
matching row: the data column is written onto the row with id 1 and the
stats-valid flag is cleared. -/
theorem c2_upsert_amended_witness :
    nfT.upsert ⟨[⟨1, [("degree", vint 2)]⟩], [], [], 1⟩
        [("degree", vint 2)] [("galt", vint 5)]
      = .ok ({ nfT with stats_valid := false },
             ⟨[⟨1, [("degree", vint 2), ("galt", vint 5)]⟩], [], [], 1⟩) :=
  (c2_upsert_amended nfT ⟨[⟨1, [("degree", vint 2)]⟩], [], [], 1⟩
      [("degree", vint 2)] [("galt", vint 5)] [("galt", vint 5)] []
      rfl rfl rfl rfl rfl).2.1 1 rfl rfl (by decide)

end Theorems

end LMFDB
